import Mathlib

/-!
# Verification of the osu-format beatmap decoder

A shallow embedding of `src/lib.rs` of `rust-osu-format`, together with
theorems settling the frozen claims about its specification.

Modelling conventions:
* Rust `String`/`&str` values are Lean `String`s; the handful of standard
  library string operations the decoder relies on (`trim`, `split`,
  `splitn`, `starts_with`, `trim_matches`) are re-implemented on the
  underlying character lists so that every definition evaluates by `decide`.
  `trim` is modelled over ASCII whitespace, which covers every input the
  development touches.
* `u32`/`u64` become `Nat` with the overflow bound checked where the Rust
  parser would reject an out-of-range literal; `f32` becomes `Rat`
  (every float literal appearing in the claims is exactly representable,
  and the only arithmetic performed on these fields is one addition).
* Rust `Result<_, &'static str>` becomes `Except String _` carrying the
  exact source message strings.  A call to `.unwrap()` on an `Err`/`None`
  aborts the thread rather than returning; the outcome type `POut` makes
  that third possibility explicit (`POut.abortUnwrap`).
* The `Parser` struct holds a fallible line iterator, a pending section
  name and a done flag; it is modelled by `ParserState`, the iterator
  becoming the list of raw line read results that remain.
-/

/-- ASCII whitespace recogniser used by the `trim` model. -/
def isWS (c : Char) : Bool :=
  c = ' ' || c = '\t' || c = '\r' || c = '\n'

/-- Rust `str::trim`, modelled over ASCII whitespace. -/
def rust_trim (s : String) : String :=
  String.mk (((s.data.dropWhile isWS).reverse.dropWhile isWS).reverse)

/-- Rust `str::trim_matches(p)`: strip characters satisfying `p` from both ends. -/
def trim_matches (p : Char → Bool) (s : String) : String :=
  String.mk (((s.data.dropWhile p).reverse.dropWhile p).reverse)

/-- Rust `str::starts_with(pre)` for a string pattern. -/
def starts_with (pre s : String) : Bool :=
  pre.data.isPrefixOf s.data

/-- Rust `str::split(c)` for a character delimiter: splits at every
occurrence, keeping empty fields. -/
def split_char (c : Char) (s : String) : List String :=
  (s.data.splitOnP (· = c)).map String.mk

/-- Split a character list at the first occurrence of `c`, if any. -/
def splitFirst (c : Char) : List Char → Option (List Char × List Char)
  | [] => none
  | x :: xs =>
    if x = c then some ([], xs)
    else (splitFirst c xs).map (fun ab => (x :: ab.1, ab.2))

/-- Rust `str::splitn(2, c)`: at most two fields, split at the first `c`. -/
def splitn2 (c : Char) (s : String) : List String :=
  match splitFirst c s.data with
  | none => [s]
  | some (a, b) => [String.mk a, String.mk b]

/-- `Char.isDigit` value of an ASCII digit. -/
def digit_val (c : Char) : Option Nat :=
  if '0' ≤ c ∧ c ≤ '9' then some (c.toNat - '0'.toNat) else none

/-- Decimal value of a digit string. -/
def digits_val (l : List Char) : Option Nat :=
  (l.mapM digit_val).map (·.foldl (fun a d => a * 10 + d) 0)

/-- Rust `u32::from_str`: optional `+` sign, at least one ASCII digit,
value below `2^32`. -/
def u32_from_str (s : String) : Option Nat :=
  let ds := match s.data with
    | '+' :: rest => rest
    | l => l
  if ds = [] then none
  else match digits_val ds with
    | none => none
    | some v => if v < 2 ^ 32 then some v else none

/-- Rust `u64::from_str`: optional `+` sign, at least one ASCII digit,
value below `2^64`. -/
def u64_from_str (s : String) : Option Nat :=
  let ds := match s.data with
    | '+' :: rest => rest
    | l => l
  if ds = [] then none
  else match digits_val ds with
    | none => none
    | some v => if v < 2 ^ 64 then some v else none

/-- Value of a fraction-part digit string, scaled below 1. -/
def frac_val (l : List Char) : Option Rat :=
  (digits_val l).map (fun n => (n : Rat) / ((10 : Rat) ^ l.length))

/-- Rust `f32::from_str`, modelled on the finite decimal subset of the
float grammar (optional sign, integer digits, optional `.` and fraction
digits, at least one digit overall; no exponent, `inf` or `nan` — no input
in this development uses those forms, and rounding to binary is dropped:
decimal literals are read exactly into `Rat`). -/
def f32_from_str (s : String) : Option Rat :=
  let signAndRest : Bool × List Char := match s.data with
    | '-' :: rest => (true, rest)
    | '+' :: rest => (false, rest)
    | l => (false, l)
  let rest := signAndRest.2
  let mag : Option Rat := match splitFirst '.' rest with
    | none => if rest = [] then none else (digits_val rest).map (fun n => (n : Rat))
    | some (a, b) =>
      if a = [] ∧ b = [] then none
      else match digits_val a, frac_val b with
        | some i, some f => some ((i : Rat) + f)
        | some i, none => if b = [] then some ((i : Rat)) else none
        | none, some f => if a = [] then some f else none
        | none, none => none
  mag.map (fun m => if signAndRest.1 then -m else m)

/-- `fn parse_bool` from the source: strictly `"0"` or `"1"`. -/
def parse_bool (s : String) : Except String Bool :=
  if s = "0" then .ok false
  else if s = "1" then .ok true
  else .error "malformed bool"

/-- `enum BeatmapMode`. -/
inductive BeatmapMode where
  | standard
  | taiko
  | catchTheBeat
  | mania
  deriving DecidableEq

instance : Inhabited BeatmapMode := ⟨.standard⟩

/-- `impl FromStr for BeatmapMode`: numeric code 0–3; both the
parse-failure and unknown-code errors are collapsed to `none` (the source
only ever consumes this result through `.unwrap()`). -/
def mode_from_str (s : String) : Option BeatmapMode :=
  match u32_from_str s with
  | none => none
  | some 0 => some .standard
  | some 1 => some .taiko
  | some 2 => some .catchTheBeat
  | some 3 => some .mania
  | some _ => none

/-- `struct BeatmapGeneral`. -/
structure BeatmapGeneral where
  audio_filename : String := ""
  audio_lead_in : Nat := 0
  preview_time : Nat := 0
  countdown : Bool := false
  sample_set : String := ""
  stack_leniency : Rat := 0
  mode : BeatmapMode := .standard
  letterbox_in_breaks : Bool := false
  widescreen_storyboard : Bool := false
  deriving DecidableEq

/-- `struct BeatmapMetadata`. -/
structure BeatmapMetadata where
  title : String := ""
  title_unicode : String := ""
  artist : String := ""
  artist_unicode : String := ""
  creator : String := ""
  version : String := ""
  source : String := ""
  tags : List String := []
  beatmap_id : Nat := 0
  beatmap_set_id : Nat := 0
  deriving DecidableEq

/-- `struct BeatmapDifficulty`. -/
structure BeatmapDifficulty where
  hp_drain_rate : Rat := 0
  circle_size : Rat := 0
  overall_difficulty : Rat := 0
  approach_rate : Rat := 0
  slider_multiplier : Rat := 0
  slider_tick_rate : Rat := 0
  deriving DecidableEq

/-- `enum Event`. -/
inductive Event where
  | backgroundMedia (filepath : String)
  | sprite (layer origin filepath : String) (x y : Nat)
  | animation (layer origin filepath : String)
      (x y frame_count frame_delay : Nat) (loop_type : String)
  deriving DecidableEq

/-- `struct TimingPoint`. -/
structure TimingPoint where
  offset : Nat := 0
  milliseconds_per_beat : Rat := 0
  meter : Nat := 0
  sample_type : Nat := 0
  sample_set : Nat := 0
  volume : Nat := 0
  kiai_mode : Bool := false
  inherited : Bool := false
  deriving DecidableEq

/-- `TimingPoint::inherit`: the Rust method clones `self`, returns the
clone unchanged unless `self.inherited`, and otherwise overwrites the
tempo with `prev.milliseconds_per_beat + self.milliseconds_per_beat` and
the inherited flag with `prev.inherited`. -/
def TimingPoint.inherit (self prev : TimingPoint) : TimingPoint :=
  if !self.inherited then self
  else
    { self with
      milliseconds_per_beat := prev.milliseconds_per_beat + self.milliseconds_per_beat
      inherited := prev.inherited }

/-- `struct HitObjectBase`. -/
structure HitObjectBase where
  x : Nat := 0
  y : Nat := 0
  time : Nat := 0
  object_type : Nat := 0
  hit_sound : Nat := 0
  deriving DecidableEq

/-- `enum HitObject`. -/
inductive HitObject where
  | circle (base : HitObjectBase)
  | slider (base : HitObjectBase)
      (slider_type repeatCount edge_hitsound edge_addition : Nat)
  | spinner (base : HitObjectBase) (end_time : Nat)
  | longNote (base : HitObjectBase) (end_time : Nat)
  | other (base : HitObjectBase)
  deriving DecidableEq

/-- `HitObject::base`. -/
def HitObject.base : HitObject → HitObjectBase
  | .circle b => b
  | .slider b _ _ _ _ => b
  | .spinner b _ => b
  | .longNote b _ => b
  | .other b => b

/-- `struct Beatmap`. -/
structure Beatmap where
  general : BeatmapGeneral := {}
  metadata : BeatmapMetadata := {}
  difficulty : BeatmapDifficulty := {}
  events : List Event := []
  timing_points : List TimingPoint := []
  hit_objects : List HitObject := []

/-- Outcome of running a piece of the decoder: a returned value, a
returned `Err` carrying the source's message string, or a thread abort
caused by `.unwrap()` on a failed conversion. -/
inductive POut (α : Type) where
  | ok (a : α)
  | err (e : String)
  | abortUnwrap
  deriving DecidableEq

/-- Map over the success case of a decoder outcome. -/
def POut.map (f : α → β) : POut α → POut β
  | .ok a => .ok (f a)
  | .err e => .err e
  | .abortUnwrap => .abortUnwrap

/-- Run the continuation on an unwrapped `Option`, aborting as Rust
`.unwrap()` does when the value is missing. -/
def unwrapO (o : Option α) (f : α → β) : POut β :=
  match o with
  | some a => .ok (f a)
  | none => .abortUnwrap

/-- Run the continuation on an unwrapped `Result`, aborting as Rust
`.unwrap()` does on `Err`. -/
def unwrapE (o : Except String α) (f : α → β) : POut β :=
  match o with
  | .ok a => .ok (f a)
  | .error _ => .abortUnwrap

/-- One key-value assignment of `Parser::parse_general`: the `match` over
recognized keys, with each coercion `.unwrap()`ed as in the source and
unrecognized keys ignored. -/
def general_apply (sec : BeatmapGeneral) (k v : String) : POut BeatmapGeneral :=
  if k = "AudioFilename" then .ok { sec with audio_filename := v }
  else if k = "AudioLeadIn" then unwrapO (u32_from_str v) ({ sec with audio_lead_in := · })
  else if k = "PreviewTime" then unwrapO (u32_from_str v) ({ sec with preview_time := · })
  else if k = "Countdown" then unwrapE (parse_bool v) ({ sec with countdown := · })
  else if k = "SampleSet" then .ok { sec with sample_set := v }
  else if k = "StackLeniency" then unwrapO (f32_from_str v) ({ sec with stack_leniency := · })
  else if k = "Mode" then unwrapO (mode_from_str v) ({ sec with mode := · })
  else if k = "LetterboxInBreaks" then unwrapE (parse_bool v) ({ sec with letterbox_in_breaks := · })
  else if k = "WidescreenStoryboard" then unwrapE (parse_bool v) ({ sec with widescreen_storyboard := · })
  else .ok sec

/-- One key-value assignment of `Parser::parse_metadata`. -/
def metadata_apply (sec : BeatmapMetadata) (k v : String) : POut BeatmapMetadata :=
  if k = "Title" then .ok { sec with title := v }
  else if k = "TitleUnicode" then .ok { sec with title_unicode := v }
  else if k = "Artist" then .ok { sec with artist := v }
  else if k = "ArtistUnicode" then .ok { sec with artist_unicode := v }
  else if k = "Creator" then .ok { sec with creator := v }
  else if k = "Version" then .ok { sec with version := v }
  else if k = "Source" then .ok { sec with source := v }
  else if k = "Tags" then .ok { sec with tags := split_char ' ' v }
  else if k = "BeatmapID" then unwrapO (u64_from_str v) ({ sec with beatmap_id := · })
  else if k = "BeatmapSetID" then unwrapO (u64_from_str v) ({ sec with beatmap_set_id := · })
  else .ok sec

/-- One key-value assignment of `Parser::parse_difficulty`. -/
def difficulty_apply (sec : BeatmapDifficulty) (k v : String) : POut BeatmapDifficulty :=
  if k = "HPDrainRate" then unwrapO (f32_from_str v) ({ sec with hp_drain_rate := · })
  else if k = "CircleSize" then unwrapO (f32_from_str v) ({ sec with circle_size := · })
  else if k = "OverallDifficulty" then unwrapO (f32_from_str v) ({ sec with overall_difficulty := · })
  else if k = "ApproachRate" then unwrapO (f32_from_str v) ({ sec with approach_rate := · })
  else if k = "SliderMultiplier" then unwrapO (f32_from_str v) ({ sec with slider_multiplier := · })
  else if k = "SliderTickRate" then unwrapO (f32_from_str v) ({ sec with slider_tick_rate := · })
  else .ok sec

/-- The body of the `Parser::parse_events` loop for one record line:
`None` means the line was skipped (`continue` in the source), `Some`
carries the event pushed onto the section. -/
def event_of_line (l : String) : POut (Option Event) :=
  let values := split_char ',' l
  let first := values.headD ""
  if starts_with " " first || starts_with "_" first then .ok none
  else if first = "Sprite" then
    if values.length ≠ 6 then .ok none
    else match u32_from_str (values.getD 4 ""), u32_from_str (values.getD 5 "") with
      | some x, some y =>
        .ok (some (.sprite (values.getD 1 "") (values.getD 2 "")
          (trim_matches (· = '"') (values.getD 3 "")) x y))
      | _, _ => .abortUnwrap
  else if first = "Animation" then
    if values.length ≠ 9 then .ok none
    else match u32_from_str (values.getD 4 ""), u32_from_str (values.getD 5 ""),
        u32_from_str (values.getD 6 ""), u32_from_str (values.getD 7 "") with
      | some x, some y, some fc, some fd =>
        .ok (some (.animation (values.getD 1 "") (values.getD 2 "")
          (trim_matches (· = '"') (values.getD 3 "")) x y fc fd (values.getD 8 "")))
      | _, _, _, _ => .abortUnwrap
  else
    if values.length ≠ 5 then .ok none
    else .ok (some (.backgroundMedia (trim_matches (· = '"') (values.getD 3 ""))))

/-- The body of the `Parser::parse_timing_points` loop for one record
line: exactly 8 comma-separated fields or the loop returns
`Err("malformed timing point")`; each field coercion is `.unwrap()`ed;
the stored inherited flag negates the raw token. -/
def timing_point_of_line (l : String) : POut TimingPoint :=
  let values := split_char ',' l
  if values.length ≠ 8 then .err "malformed timing point"
  else match u32_from_str (values.getD 0 ""), f32_from_str (values.getD 1 ""),
      u32_from_str (values.getD 2 ""), u32_from_str (values.getD 3 ""),
      u32_from_str (values.getD 4 ""), u32_from_str (values.getD 5 ""),
      parse_bool (values.getD 6 ""), parse_bool (values.getD 7 "") with
    | some off, some mpb, some met, some sty, some sse, some vol, .ok uninh, .ok kiai =>
      .ok { offset := off, milliseconds_per_beat := mpb, meter := met,
            sample_type := sty, sample_set := sse, volume := vol,
            inherited := !uninh, kiai_mode := kiai }
    | _, _, _, _, _, _, _, _ => .abortUnwrap

/-- The kind dispatch of `Parser::parse_hit_objects`: the if-chain over
the object-type bit field, in source order. -/
def hit_object_dispatch (base : HitObjectBase) (values : List String) : POut HitObject :=
  if base.object_type &&& 0x01 ≠ 0 then .ok (.circle base)
  else if base.object_type &&& 0x02 ≠ 0 then .ok (.slider base 0 0 0 0)
  else if base.object_type &&& 0x08 ≠ 0 then .ok (.spinner base 0)
  else if base.object_type &&& 0x80 ≠ 0 then
    let additional := split_char ':' (values.getD 5 "")
    unwrapO (u32_from_str (additional.headD "")) (.longNote base ·)
  else .ok (.other base)

/-- The body of the `Parser::parse_hit_objects` loop for one record line:
at least 6 comma-separated fields or the loop returns
`Err("malformed hit object")`; the first five fields build the base. -/
def hit_object_of_line (l : String) : POut HitObject :=
  let values := split_char ',' l
  if values.length < 6 then .err "malformed hit object"
  else match u32_from_str (values.getD 0 ""), u32_from_str (values.getD 1 ""),
      u32_from_str (values.getD 2 ""), u32_from_str (values.getD 3 ""),
      u32_from_str (values.getD 4 "") with
    | some x, some y, some t, some ot, some hs =>
      hit_object_dispatch ⟨x, y, t, ot, hs⟩ values
    | _, _, _, _, _ => .abortUnwrap

deriving instance DecidableEq for Except

/-- `struct Parser`: the remaining raw line read results (`Ok` a text
line, `Err` an I/O failure with irrelevant payload), the pending section
name latched by the line scanner, and the exhaustion flag. -/
structure ParserState where
  lines : List (Except Unit String)
  sectionName : Option String
  done : Bool
  deriving DecidableEq

/-- `Parser::read_line`, uncurried over the state components so that the
skipping loop is structural recursion on the remaining lines: skip lines
that are blank after trimming or start with `//`; latch a `[Name]` header
into the pending section name and report no content; surface I/O errors;
mark the state done on exhaustion. -/
def read_line_core :
    List (Except Unit String) → Option String → Bool →
      ParserState × Option (Except String String)
  | [], sec, _ => (⟨[], sec, true⟩, none)
  | .error _ :: rest, sec, done => (⟨rest, sec, done⟩, some (.error "io error"))
  | .ok l :: rest, sec, done =>
    let s := rust_trim l
    if s.data.length = 0 || starts_with "//" s then
      read_line_core rest sec done
    else if starts_with "[" s then
      (⟨rest, some (rust_trim (trim_matches (fun c => c = '[' || c = ']') s)), done⟩, none)
    else
      (⟨rest, sec, done⟩, some (.ok s))

/-- `Parser::read_line` on the packaged state. -/
def read_line (st : ParserState) : ParserState × Option (Except String String) :=
  read_line_core st.lines st.sectionName st.done

/-- `Parser::read_header`: one raw read before any scanning; the line
must start with the format marker. -/
def read_header (st : ParserState) : ParserState × Except String String :=
  match st.lines with
  | [] => (st, .error "empty file")
  | .error _ :: rest => ({ st with lines := rest }, .error "io error")
  | .ok l :: rest =>
    ({ st with lines := rest },
      if !(starts_with "osu file format" l) then .error "malformed header" else .ok l)

/-- The final `self.section.take()` match of `Parser::read_section`. -/
def section_take (st : ParserState) : ParserState × Option (Except String String) :=
  match st.sectionName with
  | none => ({ st with sectionName := none }, some (.error "expected a section"))
  | some name => ({ st with sectionName := none }, some (.ok name))

/-- `Parser::read_section`: nothing once done; otherwise pull one line
when no section is pending (content where a section was expected is an
error), then consume the pending section name. -/
def read_section (st : ParserState) : ParserState × Option (Except String String) :=
  if st.done then (st, none)
  else
    match st.sectionName with
    | some _ => section_take st
    | none =>
      match read_line st with
      | (st', none) => section_take st'
      | (st', some (.ok _)) => (st', some (.error "expected a section, not a field"))
      | (st', some (.error e)) => (st', some (.error e))

/-- `Parser::read_key_value`: one content line split at the first `:`,
both sides trimmed; two parts required. -/
def read_key_value (st : ParserState) :
    ParserState × Option (Except String (String × String)) :=
  match read_line st with
  | (st', none) => (st', none)
  | (st', some (.error e)) => (st', some (.error e))
  | (st', some (.ok l)) =>
    match splitn2 ':' l with
    | [k, v] => (st', some (.ok (rust_trim k, rust_trim v)))
    | _ => (st', some (.error "malformed key-value field"))

/-- Shape of a `read_line_core` result: a content or error read consumes
at least one raw line and touches neither the pending section nor the
done flag; a no-content return is either exhaustion (state done, no lines
left, section kept) or a latched header (at least one raw line consumed,
a section now pending, done flag kept). -/
def read_line_core_spec :
    ∀ lines (sec : Option String) (done : Bool),
      (∀ st' r, read_line_core lines sec done = (st', some r) →
        st'.lines.length < lines.length ∧ st'.sectionName = sec ∧ st'.done = done)
      ∧ (∀ st', read_line_core lines sec done = (st', none) →
        st' = ⟨[], sec, true⟩
        ∨ (st'.lines.length < lines.length ∧ st'.sectionName.isSome ∧ st'.done = done)) := by
  intro lines
  induction lines with
  | nil =>
    intro sec done
    constructor
    · intro st' r h
      simp [read_line_core] at h
    · intro st' h
      simp [read_line_core] at h
      simp [h]
  | cons hd tl ih =>
    intro sec done
    cases hd with
    | error e =>
      constructor
      · intro st' r h
        simp [read_line_core] at h
        simp [← h.1]
      · intro st' h
        simp [read_line_core] at h
    | ok l =>
      constructor
      · intro st' r h
        simp only [read_line_core] at h
        split at h
        · rcases ((ih sec done).1 st' r h) with ⟨h1, h2, h3⟩
          exact ⟨Nat.lt_succ_of_lt h1, h2, h3⟩
        · split at h
          · simp at h
          · rw [Prod.mk.injEq] at h
            simp [← h.1]
      · intro st' h
        simp only [read_line_core] at h
        split at h
        · rcases ((ih sec done).2 st' h) with h1 | ⟨h1, h2, h3⟩
          · exact Or.inl h1
          · exact Or.inr ⟨Nat.lt_succ_of_lt h1, h2, h3⟩
        · split at h
          · rw [Prod.mk.injEq] at h
            refine Or.inr ?_
            simp [← h.1]
          · simp at h

/-- A successful or failing `read_line` consumes at least one raw line. -/
def read_line_some_lt {st st' : ParserState} {r} (h : read_line st = (st', some r)) :
    st'.lines.length < st.lines.length ∧ st'.sectionName = st.sectionName
      ∧ st'.done = st.done :=
  (read_line_core_spec st.lines st.sectionName st.done).1 st' r h

/-- A no-content `read_line` either exhausted the source or latched a
header. -/
def read_line_none_cases {st st' : ParserState} (h : read_line st = (st', none)) :
    st' = ⟨[], st.sectionName, true⟩
    ∨ (st'.lines.length < st.lines.length ∧ st'.sectionName.isSome ∧ st'.done = st.done) :=
  (read_line_core_spec st.lines st.sectionName st.done).2 st' h

/-- A `read_key_value` that yields a result consumes at least one raw
line. -/
def read_key_value_some_lt {st st' : ParserState} {r}
    (h : read_key_value st = (st', some r)) : st'.lines.length < st.lines.length := by
  unfold read_key_value at h
  rcases hr : read_line st with ⟨st₁, o⟩
  rw [hr] at h
  match o with
  | none => simp at h
  | some (.error e) =>
    simp at h
    rw [← h.1]
    exact (read_line_some_lt hr).1
  | some (.ok l) =>
    simp at h
    rcases hs : splitn2 ':' l with _ | ⟨k, _ | ⟨v, _ | _⟩⟩ <;>
      · rw [hs] at h
        simp at h
        rw [← h.1]
        exact (read_line_some_lt hr).1

/-- The shared shape of `parse_general` / `parse_metadata` /
`parse_difficulty`: pull key-value lines until none remain, propagate
read errors with `?`, apply the per-key assignment. -/
def kv_loop (apply : α → String → String → POut α) (st : ParserState) (acc : α) :
    ParserState × POut α :=
  match h : read_key_value st with
  | (st', none) => (st', .ok acc)
  | (st', some (.error e)) => (st', .err e)
  | (st', some (.ok kv)) =>
    match apply acc kv.1 kv.2 with
    | .ok acc' => kv_loop apply st' acc'
    | .err e => (st', .err e)
    | .abortUnwrap => (st', .abortUnwrap)
termination_by st.lines.length
decreasing_by exact read_key_value_some_lt h

/-- The shared shape of `parse_events` / `parse_timing_points` /
`parse_hit_objects`: pull record lines until none remain, propagate read
errors with `?`, run the per-line step. -/
def rec_loop (step : α → String → POut α) (st : ParserState) (acc : α) :
    ParserState × POut α :=
  match h : read_line st with
  | (st', none) => (st', .ok acc)
  | (st', some (.error e)) => (st', .err e)
  | (st', some (.ok l)) =>
    match step acc l with
    | .ok acc' => rec_loop step st' acc'
    | .err e => (st', .err e)
    | .abortUnwrap => (st', .abortUnwrap)
termination_by st.lines.length
decreasing_by exact (read_line_some_lt h).1

/-- The unrecognized-section arm of `Parser::parse_section`:
`while let Some(_) = self.read_line() {}`. -/
def drain_lines (st : ParserState) : ParserState :=
  match h : read_line st with
  | (st', none) => st'
  | (st', some _) => drain_lines st'
termination_by st.lines.length
decreasing_by exact (read_line_some_lt h).1

/-- `Parser::parse_general`. -/
def parse_general (st : ParserState) (sec : BeatmapGeneral) :
    ParserState × POut BeatmapGeneral :=
  kv_loop general_apply st sec

/-- `Parser::parse_metadata`. -/
def parse_metadata (st : ParserState) (sec : BeatmapMetadata) :
    ParserState × POut BeatmapMetadata :=
  kv_loop metadata_apply st sec

/-- `Parser::parse_difficulty`. -/
def parse_difficulty (st : ParserState) (sec : BeatmapDifficulty) :
    ParserState × POut BeatmapDifficulty :=
  kv_loop difficulty_apply st sec

/-- One `parse_events` loop iteration on the accumulated section: a
skipped line leaves the section as is, an emitted event is pushed. -/
def events_step (acc : List Event) (l : String) : POut (List Event) :=
  (event_of_line l).map (fun o =>
    match o with
    | none => acc
    | some ev => acc ++ [ev])

/-- `Parser::parse_events`. -/
def parse_events (st : ParserState) (sec : List Event) :
    ParserState × POut (List Event) :=
  rec_loop events_step st sec

/-- One `parse_timing_points` loop iteration. -/
def timing_points_step (acc : List TimingPoint) (l : String) : POut (List TimingPoint) :=
  (timing_point_of_line l).map (fun tp => acc ++ [tp])

/-- `Parser::parse_timing_points`. -/
def parse_timing_points (st : ParserState) (sec : List TimingPoint) :
    ParserState × POut (List TimingPoint) :=
  rec_loop timing_points_step st sec

/-- One `parse_hit_objects` loop iteration. -/
def hit_objects_step (acc : List HitObject) (l : String) : POut (List HitObject) :=
  (hit_object_of_line l).map (fun ho => acc ++ [ho])

/-- `Parser::parse_hit_objects`. -/
def parse_hit_objects (st : ParserState) (sec : List HitObject) :
    ParserState × POut (List HitObject) :=
  rec_loop hit_objects_step st sec

/-- `Parser::parse_section`: dispatch on the section name; the six
recognized names forward to their mapper and write the result back into
the document; any other name drains the section's lines and succeeds. -/
def parse_section (name : String) (st : ParserState) (b : Beatmap) :
    ParserState × POut Beatmap :=
  if name = "General" then
    let r := parse_general st b.general
    (r.1, r.2.map (fun g => { b with general := g }))
  else if name = "Metadata" then
    let r := parse_metadata st b.metadata
    (r.1, r.2.map (fun m => { b with metadata := m }))
  else if name = "Difficulty" then
    let r := parse_difficulty st b.difficulty
    (r.1, r.2.map (fun d => { b with difficulty := d }))
  else if name = "Events" then
    let r := parse_events st b.events
    (r.1, r.2.map (fun e => { b with events := e }))
  else if name = "TimingPoints" then
    let r := parse_timing_points st b.timing_points
    (r.1, r.2.map (fun t => { b with timing_points := t }))
  else if name = "HitObjects" then
    let r := parse_hit_objects st b.hit_objects
    (r.1, r.2.map (fun hws => { b with hit_objects := hws }))
  else
    (drain_lines st, .ok b)

/-- Termination measure for the `Parser::parse` loop: raw lines dominate,
then the done flag, then the pending section name. -/
def psize (st : ParserState) : Nat :=
  4 * st.lines.length + (if st.done then 0 else 2) + (if st.sectionName.isSome then 1 else 0)

/-- One-step unfolding of `kv_loop` when the source is exhausted. -/
def kv_loop_eq_none {α : Type} {apply : α → String → String → POut α}
    {st st' : ParserState} {acc : α} (h : read_key_value st = (st', none)) :
    kv_loop apply st acc = (st', .ok acc) := by
  rw [kv_loop.eq_def]
  split
  · rename_i heq
    rw [h] at heq
    cases heq
    rfl
  · rename_i heq
    rw [h] at heq
    cases heq
  · rename_i heq
    rw [h] at heq
    cases heq

/-- One-step unfolding of `kv_loop` on a read error. -/
def kv_loop_eq_read_err {α : Type} {apply : α → String → String → POut α}
    {st st' : ParserState} {acc : α} {e : String}
    (h : read_key_value st = (st', some (.error e))) :
    kv_loop apply st acc = (st', .err e) := by
  rw [kv_loop.eq_def]
  split
  · rename_i heq
    rw [h] at heq
    cases heq
  · rename_i heq
    rw [h] at heq
    cases heq
    rfl
  · rename_i heq
    rw [h] at heq
    cases heq

/-- One-step unfolding of `kv_loop` on a key-value pair. -/
def kv_loop_eq_ok {α : Type} {apply : α → String → String → POut α}
    {st st' : ParserState} {acc : α} {kv : String × String}
    (h : read_key_value st = (st', some (.ok kv))) :
    kv_loop apply st acc =
      match apply acc kv.1 kv.2 with
      | .ok acc' => kv_loop apply st' acc'
      | .err e => (st', .err e)
      | .abortUnwrap => (st', .abortUnwrap) := by
  rw [kv_loop.eq_def]
  split
  · rename_i heq
    rw [h] at heq
    cases heq
  · rename_i heq
    rw [h] at heq
    cases heq
  · rename_i heq
    rw [h] at heq
    cases heq
    rfl

/-- One-step unfolding of `rec_loop` when the source is exhausted. -/
def rec_loop_eq_none {α : Type} {step : α → String → POut α}
    {st st' : ParserState} {acc : α} (h : read_line st = (st', none)) :
    rec_loop step st acc = (st', .ok acc) := by
  rw [rec_loop.eq_def]
  split
  · rename_i heq
    rw [h] at heq
    cases heq
    rfl
  · rename_i heq
    rw [h] at heq
    cases heq
  · rename_i heq
    rw [h] at heq
    cases heq

/-- One-step unfolding of `rec_loop` on a read error. -/
def rec_loop_eq_read_err {α : Type} {step : α → String → POut α}
    {st st' : ParserState} {acc : α} {e : String}
    (h : read_line st = (st', some (.error e))) :
    rec_loop step st acc = (st', .err e) := by
  rw [rec_loop.eq_def]
  split
  · rename_i heq
    rw [h] at heq
    cases heq
  · rename_i heq
    rw [h] at heq
    cases heq
    rfl
  · rename_i heq
    rw [h] at heq
    cases heq

/-- One-step unfolding of `rec_loop` on a content line. -/
def rec_loop_eq_ok {α : Type} {step : α → String → POut α}
    {st st' : ParserState} {acc : α} {l : String}
    (h : read_line st = (st', some (.ok l))) :
    rec_loop step st acc =
      match step acc l with
      | .ok acc' => rec_loop step st' acc'
      | .err e => (st', .err e)
      | .abortUnwrap => (st', .abortUnwrap) := by
  rw [rec_loop.eq_def]
  split
  · rename_i heq
    rw [h] at heq
    cases heq
  · rename_i heq
    rw [h] at heq
    cases heq
  · rename_i heq
    rw [h] at heq
    cases heq
    rfl

/-- One-step unfolding of `drain_lines` at exhaustion or a header. -/
def drain_lines_eq_none {st st' : ParserState} (h : read_line st = (st', none)) :
    drain_lines st = st' := by
  rw [drain_lines.eq_def]
  split
  · rename_i heq
    rw [h] at heq
    cases heq
    rfl
  · rename_i heq
    rw [h] at heq
    cases heq

/-- One-step unfolding of `drain_lines` on a read result. -/
def drain_lines_eq_some {st st' : ParserState} {r}
    (h : read_line st = (st', some r)) : drain_lines st = drain_lines st' := by
  rw [drain_lines.eq_def]
  split
  · rename_i heq
    rw [h] at heq
    cases heq
  · rename_i heq
    rw [h] at heq
    cases heq
    rfl

/-- `read_line` never increases the parse measure. -/
def read_line_psize {st st' : ParserState} {r} (h : read_line st = (st', r)) :
    psize st' ≤ psize st := by
  cases r with
  | none =>
    rcases read_line_none_cases h with h1 | ⟨h1, h2, h3⟩
    · subst h1
      unfold psize
      simp only [List.length_nil, Nat.mul_zero]
      split_ifs <;> omega
    · unfold psize
      rw [h3]
      simp only [h2]
      split_ifs <;> omega
  | some r =>
    rcases read_line_some_lt h with ⟨h1, h2, h3⟩
    unfold psize
    rw [h2, h3]
    split_ifs <;> omega

/-- `read_key_value` never increases the parse measure. -/
def read_key_value_psize {st st' : ParserState} {o}
    (h : read_key_value st = (st', o)) : psize st' ≤ psize st := by
  unfold read_key_value at h
  rcases hr : read_line st with ⟨st₁, ro⟩
  rw [hr] at h
  match ro with
  | none =>
    simp at h
    rw [← h.1]
    exact read_line_psize hr
  | some (.error e) =>
    simp at h
    rw [← h.1]
    exact read_line_psize hr
  | some (.ok l) =>
    simp at h
    rcases hs : splitn2 ':' l with _ | ⟨k, _ | ⟨v, _ | _⟩⟩ <;>
      · rw [hs] at h
        simp at h
        rw [← h.1]
        exact read_line_psize hr

/-- `kv_loop` never increases the parse measure. -/
def kv_loop_psize {α : Type} (apply : α → String → String → POut α)
    (st : ParserState) (acc : α) : psize (kv_loop apply st acc).1 ≤ psize st := by
  induction st, acc using kv_loop.induct apply with
  | case1 st acc st' h =>
    rw [kv_loop_eq_none h]
    exact read_key_value_psize h
  | case2 st acc st' e h =>
    rw [kv_loop_eq_read_err h]
    exact read_key_value_psize h
  | case3 st acc st' kv h a ha ih =>
    rw [kv_loop_eq_ok h, ha]
    exact le_trans ih (read_key_value_psize h)
  | case4 st acc st' kv h e ha =>
    rw [kv_loop_eq_ok h, ha]
    exact read_key_value_psize h
  | case5 st acc st' kv h ha =>
    rw [kv_loop_eq_ok h, ha]
    exact read_key_value_psize h

/-- `rec_loop` never increases the parse measure. -/
def rec_loop_psize {α : Type} (step : α → String → POut α)
    (st : ParserState) (acc : α) : psize (rec_loop step st acc).1 ≤ psize st := by
  induction st, acc using rec_loop.induct step with
  | case1 st acc st' h =>
    rw [rec_loop_eq_none h]
    exact read_line_psize h
  | case2 st acc st' e h =>
    rw [rec_loop_eq_read_err h]
    exact read_line_psize h
  | case3 st acc st' l h a ha ih =>
    rw [rec_loop_eq_ok h, ha]
    exact le_trans ih (read_line_psize h)
  | case4 st acc st' l h e ha =>
    rw [rec_loop_eq_ok h, ha]
    exact read_line_psize h
  | case5 st acc st' l h ha =>
    rw [rec_loop_eq_ok h, ha]
    exact read_line_psize h

/-- `drain_lines` never increases the parse measure. -/
def drain_lines_psize (st : ParserState) : psize (drain_lines st) ≤ psize st := by
  induction st using drain_lines.induct with
  | case1 st st' h =>
    rw [drain_lines_eq_none h]
    exact read_line_psize h
  | case2 st st' r h ih =>
    rw [drain_lines_eq_some h]
    exact le_trans ih (read_line_psize h)

/-- Draining always ends at a section boundary: either the source is
exhausted or a new section name is pending. -/
def drain_lines_ends (st : ParserState) :
    (drain_lines st).done = true ∨ (drain_lines st).sectionName.isSome := by
  induction st using drain_lines.induct with
  | case1 st st' h =>
    rw [drain_lines_eq_none h]
    rcases read_line_none_cases h with h1 | ⟨_, h2, _⟩
    · rw [h1]
      exact Or.inl rfl
    · exact Or.inr h2
  | case2 st st' r h ih =>
    rw [drain_lines_eq_some h]
    exact ih

/-- `parse_section` never increases the parse measure. -/
def parse_section_psize (name : String) (st : ParserState) (b : Beatmap) :
    psize (parse_section name st b).1 ≤ psize st := by
  unfold parse_section parse_general parse_metadata parse_difficulty parse_events
    parse_timing_points parse_hit_objects
  split_ifs <;> simp <;>
    first
      | exact kv_loop_psize _ st _
      | exact rec_loop_psize _ st _
      | exact drain_lines_psize st

/-- A successfully produced section name strictly shrinks the parse
measure: either a pending name is consumed or a header line is read. -/
def read_section_ok_psize {st st' : ParserState} {name : String}
    (h : read_section st = (st', some (.ok name))) : psize st' < psize st := by
  unfold read_section at h
  by_cases hd : st.done
  · simp [hd] at h
  · simp only [hd, if_false, Bool.false_eq_true] at h
    cases hsec : st.sectionName with
    | some n =>
      rw [hsec] at h
      unfold section_take at h
      rw [hsec] at h
      simp at h
      rw [← h.1]
      unfold psize
      simp [hsec, hd]
    | none =>
      rw [hsec] at h
      rcases hr : read_line st with ⟨st₁, o⟩
      rw [hr] at h
      match o with
      | none =>
        simp only at h
        rcases read_line_none_cases hr with h1 | ⟨h1, h2, h3⟩
        · rw [h1, hsec] at h
          unfold section_take at h
          simp at h
        · rcases hs1 : st₁.sectionName with _ | n1
          · rw [hs1] at h2
            simp at h2
          · unfold section_take at h
            rw [hs1] at h
            simp at h
            rw [← h.1]
            unfold psize
            simp only [h3, hd, hsec]
            split_ifs <;> omega
      | some (.ok l) => simp at h
      | some (.error e) => simp at h

/-- The `loop` of `Parser::parse`: repeatedly take a section name and
route it, stopping at exhaustion, propagating errors and aborts. -/
def parse_loop (st : ParserState) (b : Beatmap) : POut Beatmap :=
  match h : read_section st with
  | (_, none) => .ok b
  | (_, some (.error e)) => .err e
  | (st', some (.ok name)) =>
    match h2 : parse_section name st' b with
    | (st'', .ok b') => parse_loop st'' b'
    | (_, .err e) => .err e
    | (_, .abortUnwrap) => .abortUnwrap
termination_by psize st
decreasing_by
  have hle := parse_section_psize name st' b
  rw [h2] at hle
  exact lt_of_le_of_lt hle (read_section_ok_psize h)

/-- `Parser::parse`: header check, then the section loop over a default
document. -/
def parse (st : ParserState) : POut Beatmap :=
  match read_header st with
  | (_, .error e) => .err e
  | (st', .ok _) => parse_loop st' {}

/-- `Parser::new`: wrap a raw line sequence with no pending section and
the done flag clear. -/
def Parser.new (lines : List (Except Unit String)) : ParserState :=
  ⟨lines, none, false⟩

/-- Claim C1: the hit-object kind is decided by the first matching bit of
the object-type bit field, in the fixed priority order Circle(0x01),
Slider(0x02), Spinner(0x08), LongNote(0x80), Other; in particular a bit
field with 0x01 set is a Circle and never a Slider, whatever other bits
(0x02 included) are set. -/
theorem hit_object_priority (base : HitObjectBase) (values : List String) :
    (base.object_type &&& 0x01 ≠ 0 →
        hit_object_dispatch base values = .ok (.circle base)
        ∧ ∀ a b c d, hit_object_dispatch base values ≠ .ok (.slider base a b c d))
    ∧ (base.object_type &&& 0x01 = 0 → base.object_type &&& 0x02 ≠ 0 →
        hit_object_dispatch base values = .ok (.slider base 0 0 0 0))
    ∧ (base.object_type &&& 0x01 = 0 → base.object_type &&& 0x02 = 0 →
        base.object_type &&& 0x08 ≠ 0 →
        hit_object_dispatch base values = .ok (.spinner base 0))
    ∧ (base.object_type &&& 0x01 = 0 → base.object_type &&& 0x02 = 0 →
        base.object_type &&& 0x08 = 0 → base.object_type &&& 0x80 ≠ 0 →
        ∀ et, u32_from_str ((split_char ':' (values.getD 5 "")).headD "") = some et →
          hit_object_dispatch base values = .ok (.longNote base et))
    ∧ (base.object_type &&& 0x01 = 0 → base.object_type &&& 0x02 = 0 →
        base.object_type &&& 0x08 = 0 → base.object_type &&& 0x80 = 0 →
        hit_object_dispatch base values = .ok (.other base)) := by
  refine ⟨fun h1 => ⟨?_, ?_⟩, fun h1 h2 => ?_, fun h1 h2 h3 => ?_,
    fun h1 h2 h3 h4 et het => ?_, fun h1 h2 h3 h4 => ?_⟩
  · unfold hit_object_dispatch
    rw [if_pos h1]
  · intro a b c d
    unfold hit_object_dispatch
    rw [if_pos h1]
    simp
  · unfold hit_object_dispatch
    rw [if_neg (fun hc => hc h1), if_pos h2]
  · unfold hit_object_dispatch
    rw [if_neg (fun hc => hc h1), if_neg (fun hc => hc h2), if_pos h3]
  · unfold hit_object_dispatch
    rw [if_neg (fun hc => hc h1), if_neg (fun hc => hc h2), if_neg (fun hc => hc h3),
      if_pos h4]
    simp only [het, unwrapO]
  · unfold hit_object_dispatch
    rw [if_neg (fun hc => hc h1), if_neg (fun hc => hc h2), if_neg (fun hc => hc h3),
      if_neg (fun hc => hc h4)]

/-- Witness for `hit_object_priority`: a bit field with both 0x01 and
0x02 set decodes as a Circle, never a Slider, and a 0x80 field decodes
its end time from the sixth field. -/
theorem hit_object_priority_witness :
    ((⟨0, 0, 0, 3, 0⟩ : HitObjectBase).object_type &&& 0x01 ≠ 0)
    ∧ hit_object_dispatch ⟨0, 0, 0, 3, 0⟩ [] = .ok (.circle ⟨0, 0, 0, 3, 0⟩)
    ∧ (∀ a b c d, hit_object_dispatch ⟨0, 0, 0, 3, 0⟩ [] ≠ .ok (.slider ⟨0, 0, 0, 3, 0⟩ a b c d))
    ∧ hit_object_dispatch ⟨0, 0, 0, 128, 0⟩ ["64", "96", "50", "128", "0", "275:1"]
        = .ok (.longNote ⟨0, 0, 0, 128, 0⟩ 275) := by
  refine ⟨by decide, ((hit_object_priority ⟨0, 0, 0, 3, 0⟩ []).1 (by decide)).1,
    ((hit_object_priority ⟨0, 0, 0, 3, 0⟩ []).1 (by decide)).2, ?_⟩
  exact (hit_object_priority ⟨0, 0, 0, 128, 0⟩ ["64", "96", "50", "128", "0", "275:1"]).2.2.2.1
    (by decide) (by decide) (by decide) (by decide) 275 (by decide)

/-- Claim C9: a key-value content line is split once at the first `:`,
both sides are trimmed, later `:` characters stay inside the value, and
a line with no `:` at all is a malformed key-value field error. -/
theorem read_key_value_spec (st st' : ParserState) (l : String)
    (h : read_line st = (st', some (.ok l))) :
    (splitFirst ':' l.data = none →
        read_key_value st = (st', some (.error "malformed key-value field")))
    ∧ (∀ a b, splitFirst ':' l.data = some (a, b) →
        read_key_value st
          = (st', some (.ok (rust_trim (String.mk a), rust_trim (String.mk b)))))
    ∧ read_key_value ⟨[.ok "Key: a:b"], none, false⟩
        = (⟨[], none, false⟩, some (.ok ("Key", "a:b"))) := by
  refine ⟨fun hs => ?_, fun a b hs => ?_, by decide⟩
  · unfold read_key_value splitn2
    rw [h]
    simp only [hs]
  · unfold read_key_value splitn2
    rw [h]
    simp only [hs]

/-- Witness for `read_key_value_spec`: a content line with no colon is a
malformed key-value field; one with two colons keeps the second in the
value. -/
theorem read_key_value_spec_witness :
    read_line ⟨[.ok "NoColonHere"], none, false⟩
      = (⟨[], none, false⟩, some (.ok "NoColonHere"))
    ∧ splitFirst ':' "NoColonHere".data = none
    ∧ read_key_value ⟨[.ok "NoColonHere"], none, false⟩
      = (⟨[], none, false⟩, some (.error "malformed key-value field"))
    ∧ read_key_value ⟨[.ok "Key: a:b"], none, false⟩
      = (⟨[], none, false⟩, some (.ok ("Key", "a:b"))) := by
  refine ⟨by decide, by decide, ?_, ?_⟩
  · exact (read_key_value_spec ⟨[.ok "NoColonHere"], none, false⟩ ⟨[], none, false⟩
      "NoColonHere" (by decide)).1 (by decide)
  · exact (read_key_value_spec ⟨[.ok "NoColonHere"], none, false⟩ ⟨[], none, false⟩
      "NoColonHere" (by decide)).2.2

/-- Claim C5: with no line at all the parse fails with the empty-file
error; a first raw line that does not start with `osu file format` fails
the parse with the malformed-header error; an I/O failure on this first
read surfaces as an I/O error; and a first line starting with the prefix
passes header validation. -/
theorem header_check (st : ParserState) :
    (st.lines = [] → parse st = .err "empty file")
    ∧ (∀ rest, st.lines = .error () :: rest → parse st = .err "io error")
    ∧ (∀ l rest, st.lines = .ok l :: rest → starts_with "osu file format" l = false →
        parse st = .err "malformed header")
    ∧ (∀ l rest, st.lines = .ok l :: rest → starts_with "osu file format" l = true →
        read_header st = ({ st with lines := rest }, .ok l)) := by
  refine ⟨fun h => ?_, fun rest h => ?_, fun l rest h hpre => ?_, fun l rest h hpre => ?_⟩
  · unfold parse read_header
    rw [h]
  · unfold parse read_header
    rw [h]
  · unfold parse read_header
    rw [h]
    simp [hpre]
  · unfold read_header
    rw [h]
    simp [hpre]

/-- Witness for `header_check` on concrete inputs: no lines, an I/O
failure, a wrong first line, and a correct header. -/
theorem header_check_witness :
    parse ⟨[], none, false⟩ = .err "empty file"
    ∧ parse ⟨[.error ()], none, false⟩ = .err "io error"
    ∧ parse ⟨[.ok "hello"], none, false⟩ = .err "malformed header"
    ∧ read_header ⟨[.ok "osu file format v7"], none, false⟩
        = (⟨[], none, false⟩, .ok "osu file format v7") := by
  refine ⟨(header_check ⟨[], none, false⟩).1 rfl,
    (header_check ⟨[.error ()], none, false⟩).2.1 [] rfl,
    (header_check ⟨[.ok "hello"], none, false⟩).2.2.1 "hello" [] rfl (by decide), ?_⟩
  exact (header_check ⟨[.ok "osu file format v7"], none, false⟩).2.2.2
    "osu file format v7" [] rfl (by decide)

/-- Claim C6: an Events record line whose first comma-separated field
begins with a space or an underscore is skipped entirely: whatever its
arity, no event is produced, no error is raised, and the events loop
continues unchanged. -/
theorem events_continuation_skip (l : String) (st st' : ParserState) (acc : List Event)
    (hsp : starts_with " " ((split_char ',' l).headD "") = true
      ∨ starts_with "_" ((split_char ',' l).headD "") = true) :
    event_of_line l = .ok none
    ∧ (read_line st = (st', some (.ok l)) → parse_events st acc = parse_events st' acc) := by
  have hcond : (starts_with " " ((split_char ',' l).headD "")
      || starts_with "_" ((split_char ',' l).headD "")) = true := by
    rcases hsp with hsp | hsp
    · rw [hsp]
      rfl
    · rw [hsp]
      simp
  have hstep : event_of_line l = .ok none := by
    simp only [event_of_line]
    rw [hcond]
    simp
  refine ⟨hstep, fun h => ?_⟩
  unfold parse_events
  rw [rec_loop_eq_ok h]
  simp only [events_step, hstep, POut.map]

/-- Witness for `events_continuation_skip`: an underscore continuation
line inside an Events section is dropped by the loop, and a line whose
first field begins with a space is skipped by the per-line step. -/
theorem events_continuation_skip_witness :
    starts_with "_" ((split_char ',' "_x,1,2").headD "") = true
    ∧ event_of_line "_x,1,2" = .ok none
    ∧ read_line ⟨[.ok "_x,1,2"], none, false⟩ = (⟨[], none, false⟩, some (.ok "_x,1,2"))
    ∧ parse_events ⟨[.ok "_x,1,2"], none, false⟩ [] = parse_events ⟨[], none, false⟩ []
    ∧ starts_with " " ((split_char ',' " F,a").headD "") = true
    ∧ event_of_line " F,a" = .ok none := by
  refine ⟨by decide, ?_, by decide, ?_, by decide, ?_⟩
  · exact (events_continuation_skip "_x,1,2" ⟨[], none, false⟩ ⟨[], none, false⟩ []
      (Or.inr (by decide))).1
  · exact (events_continuation_skip "_x,1,2" ⟨[.ok "_x,1,2"], none, false⟩
      ⟨[], none, false⟩ [] (Or.inr (by decide))).2 (by decide)
  · exact (events_continuation_skip " F,a" ⟨[], none, false⟩ ⟨[], none, false⟩ []
      (Or.inl (by decide))).1

/-- Claim C3: an Events record with the wrong field arity (`Sprite` with
other than 6 fields, `Animation` with other than 9, any other first field
with other than 5) is silently skipped — no event, no error — whereas a
TimingPoints record that does not split into exactly 8 fields makes the
mapper, and with it the whole parse, fail with the malformed-timing-point
error. -/
theorem arity_asymmetry (l : String) (st st' : ParserState)
    (ev : List Event) (tp : List TimingPoint) :
    ((((split_char ',' l).headD "" = "Sprite" ∧ (split_char ',' l).length ≠ 6)
      ∨ ((split_char ',' l).headD "" = "Animation" ∧ (split_char ',' l).length ≠ 9)
      ∨ ((split_char ',' l).headD "" ≠ "Sprite" ∧ (split_char ',' l).headD "" ≠ "Animation"
          ∧ (split_char ',' l).length ≠ 5)) →
      event_of_line l = .ok none
      ∧ (read_line st = (st', some (.ok l)) → parse_events st ev = parse_events st' ev))
    ∧ ((split_char ',' l).length ≠ 8 →
        timing_point_of_line l = .err "malformed timing point"
        ∧ (read_line st = (st', some (.ok l)) →
            parse_timing_points st tp = (st', .err "malformed timing point"))) := by
  constructor
  · intro hcase
    have hstep : event_of_line l = .ok none := by
      rcases hc : (starts_with " " ((split_char ',' l).headD "")
          || starts_with "_" ((split_char ',' l).headD "")) with _ | _
      · simp only [event_of_line]
        rw [hc]
        simp only [Bool.false_eq_true, if_false]
        rcases hcase with ⟨hf, ha⟩ | ⟨hf, ha⟩ | ⟨hf1, hf2, ha⟩
        · rw [if_pos hf, if_pos ha]
        · rw [if_neg (by rw [hf]; decide), if_pos hf, if_pos ha]
        · rw [if_neg hf1, if_neg hf2, if_pos ha]
      · simp only [event_of_line]
        rw [hc]
        simp
    refine ⟨hstep, fun h => ?_⟩
    unfold parse_events
    rw [rec_loop_eq_ok h]
    simp only [events_step, hstep, POut.map]
  · intro ha
    have hstep : timing_point_of_line l = .err "malformed timing point" := by
      unfold timing_point_of_line
      simp [ha]
    refine ⟨hstep, fun h => ?_⟩
    unfold parse_timing_points
    rw [rec_loop_eq_ok h]
    simp only [timing_points_step, hstep, POut.map]

/-- Witness for `arity_asymmetry`: a 5-field `Sprite` line is skipped by
the events loop without an error, while a 7-field timing-point line makes
the timing-points loop return the malformed-timing-point error. -/
theorem arity_asymmetry_witness :
    (split_char ',' "Sprite,a,b,c,1").headD "" = "Sprite"
    ∧ (split_char ',' "Sprite,a,b,c,1").length = 5
    ∧ event_of_line "Sprite,a,b,c,1" = .ok none
    ∧ parse_events ⟨[.ok "Sprite,a,b,c,1"], none, false⟩ []
        = parse_events ⟨[], none, false⟩ []
    ∧ (split_char ',' "1,2,3,4,5,6,7").length = 7
    ∧ timing_point_of_line "1,2,3,4,5,6,7" = .err "malformed timing point"
    ∧ parse_timing_points ⟨[.ok "1,2,3,4,5,6,7"], none, false⟩ []
        = (⟨[], none, false⟩, .err "malformed timing point") := by
  refine ⟨by decide, by decide, ?_, ?_, by decide, ?_, ?_⟩
  · exact ((arity_asymmetry "Sprite,a,b,c,1" ⟨[], none, false⟩ ⟨[], none, false⟩ [] []).1
      (Or.inl ⟨by decide, by decide⟩)).1
  · exact ((arity_asymmetry "Sprite,a,b,c,1" ⟨[.ok "Sprite,a,b,c,1"], none, false⟩
      ⟨[], none, false⟩ [] []).1 (Or.inl ⟨by decide, by decide⟩)).2 (by decide)
  · exact ((arity_asymmetry "1,2,3,4,5,6,7" ⟨[], none, false⟩ ⟨[], none, false⟩ [] []).2
      (by decide)).1
  · exact ((arity_asymmetry "1,2,3,4,5,6,7" ⟨[.ok "1,2,3,4,5,6,7"], none, false⟩
      ⟨[], none, false⟩ [] []).2 (by decide)).2 (by decide)

/-- Counterexample to claim C7 as stated: parsing the Metadata line
`Tags: foo bar  baz` (note the doubled space) does not yield the tag list
`["foo","bar","baz"]` — Rust `split(' ')` keeps an empty token between
two consecutive spaces. -/
theorem tags_double_space_cex :
    (parse_metadata ⟨[Except.ok "Tags: foo bar  baz"], none, false⟩ {}).2
      ≠ POut.ok { tags := ["foo", "bar", "baz"] } := by
  have h1 : read_key_value ⟨[Except.ok "Tags: foo bar  baz"], none, false⟩
      = (⟨[], none, false⟩, some (.ok ("Tags", "foo bar  baz"))) := by decide
  have h2 : read_key_value ⟨[], none, false⟩ = (⟨[], none, true⟩, none) := by decide
  have h3 : metadata_apply {} "Tags" "foo bar  baz"
      = .ok { tags := ["foo", "bar", "", "baz"] } := by decide
  rw [parse_metadata, kv_loop_eq_ok h1]
  simp only [h3, kv_loop_eq_none h2]
  decide

/-- Claim C7 (amended): parsing the Metadata line `Tags: foo bar  baz`
(doubled space) yields `["foo","bar","","baz"]`, the space-split of the
trimmed value with the empty token the doubled space produces; in
general the tag list is the space-split of the value, so input token
order is preserved and duplicate tokens are allowed. -/
theorem tags_spec :
    (parse_metadata ⟨[Except.ok "Tags: foo bar  baz"], none, false⟩ {}).2
      = POut.ok { tags := ["foo", "bar", "", "baz"] }
    ∧ (∀ (sec : BeatmapMetadata) (v : String),
        metadata_apply sec "Tags" v = .ok { sec with tags := split_char ' ' v })
    ∧ (parse_metadata ⟨[Except.ok "Tags: foo foo"], none, false⟩ {}).2
      = POut.ok { tags := ["foo", "foo"] } := by
  refine ⟨?_, fun sec v => ?_, ?_⟩
  · have h1 : read_key_value ⟨[Except.ok "Tags: foo bar  baz"], none, false⟩
        = (⟨[], none, false⟩, some (.ok ("Tags", "foo bar  baz"))) := by decide
    have h2 : read_key_value ⟨[], none, false⟩ = (⟨[], none, true⟩, none) := by decide
    have h3 : metadata_apply {} "Tags" "foo bar  baz"
        = .ok { tags := ["foo", "bar", "", "baz"] } := by decide
    rw [parse_metadata, kv_loop_eq_ok h1]
    simp only [h3, kv_loop_eq_none h2]
  · simp [metadata_apply]
  · have h1 : read_key_value ⟨[Except.ok "Tags: foo foo"], none, false⟩
        = (⟨[], none, false⟩, some (.ok ("Tags", "foo foo"))) := by decide
    have h2 : read_key_value ⟨[], none, false⟩ = (⟨[], none, true⟩, none) := by decide
    have h3 : metadata_apply {} "Tags" "foo foo"
        = .ok { tags := ["foo", "foo"] } := by decide
    rw [parse_metadata, kv_loop_eq_ok h1]
    simp only [h3, kv_loop_eq_none h2]

/-- Claim C8: for any unrecognized section name, the section router
drains and discards the section's lines, returns without error, leaves
the whole document untouched, and stops exactly at the next section
boundary (a newly pending section name) or at source exhaustion. -/
theorem parse_section_unknown (name : String) (st : ParserState) (b : Beatmap)
    (h1 : name ≠ "General") (h2 : name ≠ "Metadata") (h3 : name ≠ "Difficulty")
    (h4 : name ≠ "Events") (h5 : name ≠ "TimingPoints") (h6 : name ≠ "HitObjects") :
    parse_section name st b = (drain_lines st, .ok b)
    ∧ ((drain_lines st).done = true ∨ (drain_lines st).sectionName.isSome) := by
  refine ⟨?_, drain_lines_ends st⟩
  unfold parse_section
  rw [if_neg h1, if_neg h2, if_neg h3, if_neg h4, if_neg h5, if_neg h6]

/-- Witness for `parse_section_unknown`: a `[Colours]`-style section with
arbitrary content is drained without error and without touching the
document. -/
theorem parse_section_unknown_witness :
    parse_section "Colours" ⟨[.ok "Combo1: 255,0,0", .ok "[TimingPoints]", .ok "x"],
        none, false⟩ {}
      = (drain_lines ⟨[.ok "Combo1: 255,0,0", .ok "[TimingPoints]", .ok "x"], none, false⟩,
          .ok {})
    ∧ ((drain_lines ⟨[.ok "Combo1: 255,0,0", .ok "[TimingPoints]", .ok "x"],
          none, false⟩).done = true
        ∨ (drain_lines ⟨[.ok "Combo1: 255,0,0", .ok "[TimingPoints]", .ok "x"],
            none, false⟩).sectionName.isSome) := by
  exact parse_section_unknown "Colours"
    ⟨[.ok "Combo1: 255,0,0", .ok "[TimingPoints]", .ok "x"], none, false⟩ {}
    (by decide) (by decide) (by decide) (by decide) (by decide) (by decide)

/-- Claim C4 (the code as written): a recognized General or Difficulty
key whose value fails to coerce makes the mapper `.unwrap()` a failed
conversion, aborting the thread instead of returning an error value to
the caller — evaluated here on a non-numeric `AudioLeadIn`, a boolean
token other than 0/1 for `Countdown`, a game-mode code outside 0–3, and
a non-numeric `HPDrainRate`. -/
theorem general_coercion_aborts :
    (parse_general ⟨[Except.ok "AudioLeadIn: abc"], none, false⟩ {}).2 = POut.abortUnwrap
    ∧ (parse_general ⟨[Except.ok "Countdown: true"], none, false⟩ {}).2 = POut.abortUnwrap
    ∧ (parse_general ⟨[Except.ok "Mode: 7"], none, false⟩ {}).2 = POut.abortUnwrap
    ∧ (parse_difficulty ⟨[Except.ok "HPDrainRate: x"], none, false⟩ {}).2
        = POut.abortUnwrap := by
  refine ⟨?_, ?_, ?_, ?_⟩
  · have h1 : read_key_value ⟨[Except.ok "AudioLeadIn: abc"], none, false⟩
        = (⟨[], none, false⟩, some (.ok ("AudioLeadIn", "abc"))) := by decide
    have h3 : general_apply {} "AudioLeadIn" "abc" = .abortUnwrap := by decide
    rw [parse_general, kv_loop_eq_ok h1]
    simp only [h3]
  · have h1 : read_key_value ⟨[Except.ok "Countdown: true"], none, false⟩
        = (⟨[], none, false⟩, some (.ok ("Countdown", "true"))) := by decide
    have h3 : general_apply {} "Countdown" "true" = .abortUnwrap := by decide
    rw [parse_general, kv_loop_eq_ok h1]
    simp only [h3]
  · have h1 : read_key_value ⟨[Except.ok "Mode: 7"], none, false⟩
        = (⟨[], none, false⟩, some (.ok ("Mode", "7"))) := by decide
    have h3 : general_apply {} "Mode" "7" = .abortUnwrap := by decide
    rw [parse_general, kv_loop_eq_ok h1]
    simp only [h3]
  · have h1 : read_key_value ⟨[Except.ok "HPDrainRate: x"], none, false⟩
        = (⟨[], none, false⟩, some (.ok ("HPDrainRate", "x"))) := by decide
    have h3 : difficulty_apply {} "HPDrainRate" "x" = .abortUnwrap := by decide
    rw [parse_difficulty, kv_loop_eq_ok h1]
    simp only [h3]

/-- Claim C2: `inherit` returns `self` unchanged for a non-inherited
point; for an inherited point it adds the tempo fields and copies the
predecessor's inherited flag; concretely, resolving B (inherited, −25)
against A (not inherited, 500) gives tempo 475 and flag `false`. -/
theorem inherit_spec (self prev : TimingPoint) :
    (self.inherited = false → self.inherit prev = self)
    ∧ (self.inherited = true →
        (self.inherit prev).milliseconds_per_beat
            = prev.milliseconds_per_beat + self.milliseconds_per_beat
        ∧ (self.inherit prev).inherited = prev.inherited)
    ∧ ((TimingPoint.inherit
          { offset := 1000, milliseconds_per_beat := -25, meter := 4,
            volume := 100, inherited := true }
          { offset := 0, milliseconds_per_beat := 500, meter := 4,
            volume := 100, inherited := false }).milliseconds_per_beat = 475
        ∧ (TimingPoint.inherit
          { offset := 1000, milliseconds_per_beat := -25, meter := 4,
            volume := 100, inherited := true }
          { offset := 0, milliseconds_per_beat := 500, meter := 4,
            volume := 100, inherited := false }).inherited = false) := by
  refine ⟨fun h => ?_, fun h => ?_, by norm_num [TimingPoint.inherit]⟩
  · simp [TimingPoint.inherit, h]
  · simp [TimingPoint.inherit, h]

/-- Witness for `inherit_spec` at concrete points. -/
theorem inherit_spec_witness :
    ({ milliseconds_per_beat := 7, inherited := false } : TimingPoint).inherited = false
    ∧ TimingPoint.inherit { milliseconds_per_beat := 7, inherited := false }
        { milliseconds_per_beat := 3 } = { milliseconds_per_beat := 7, inherited := false } := by
  exact ⟨by decide,
    (inherit_spec { milliseconds_per_beat := 7, inherited := false }
      { milliseconds_per_beat := 3 }).1 (by decide)⟩

/-- Claim C10: `inherit` leaves offset, meter, sample type, sample set,
volume and kiai mode exactly as in `self`; only the tempo and inherited
flag can change, and they change only when `self` is inherited. -/
theorem inherit_frame (self prev : TimingPoint) :
    (self.inherit prev).offset = self.offset
    ∧ (self.inherit prev).meter = self.meter
    ∧ (self.inherit prev).sample_type = self.sample_type
    ∧ (self.inherit prev).sample_set = self.sample_set
    ∧ (self.inherit prev).volume = self.volume
    ∧ (self.inherit prev).kiai_mode = self.kiai_mode
    ∧ (self.inherited = false → self.inherit prev = self) := by
  unfold TimingPoint.inherit
  rcases h : self.inherited <;> simp [h]

/-- Witness for `inherit_frame` at concrete points. -/
theorem inherit_frame_witness :
    (TimingPoint.inherit { offset := 5, inherited := false }
        { milliseconds_per_beat := 9 }).offset = 5
    ∧ ({ offset := 5, inherited := false } : TimingPoint).inherited = false
    ∧ TimingPoint.inherit { offset := 5, inherited := false } { milliseconds_per_beat := 9 }
        = { offset := 5, inherited := false } := by
  refine ⟨(inherit_frame { offset := 5, inherited := false }
      { milliseconds_per_beat := 9 }).1, by decide, ?_⟩
  exact (inherit_frame { offset := 5, inherited := false }
    { milliseconds_per_beat := 9 }).2.2.2.2.2.2 (by decide)
